import Mathlib

/-!
# Space-shooter client (`src/client.js`)

A shallow embedding of the `GameClient` class.  Every method of the class is a function
from client state to client state.  The environment the class talks to (the 2D canvas
context, the socket, the three status elements of the page, the frame scheduler) is part of
that state: each call made on it is appended, in program order, to one effect log, and the
text currently shown by the three status elements is kept next to it.

Numbers are elements of an arbitrary field `α` (instantiated with `ℚ` for evaluation and
with `ℝ` where the value of the arctangent matters); `score` and `health` are integers, as
in the wire format.  The functions of the JavaScript `Math` object are parameters.

The read `gameState.players[socket.id]` is a JavaScript property read on a plain object: it
yields the snapshot's own entry when there is one, and otherwise the member inherited from
`Object.prototype` when the id is the name of one (`constructor`, `toString`, ...).  Such a
member is truthy and has none of the fields of a player, so its `x`, `y`, `score` and
`health` read as `undefined` and the numbers computed from them are `NaN`.
-/

namespace SpaceShooter

/-- The functions and constants of the JavaScript `Math` object read by the client.
`random n` is the value returned by the `n`-th call of `Math.random()`. -/
structure JSMath (α : Type) where
  atan2 : α → α → α
  cos : α → α
  sin : α → α
  PI : α
  random : Nat → α

/-- Calls on the canvas 2D context (`this.ctx`). -/
inductive DrawOp (α : Type) where
  | setFillStyle (style : String)
  | setStrokeStyle (style : String)
  | setLineWidth (w : α)
  | setFont (font : String)
  | setTextAlign (align : String)
  | fillRect (x y w h : α)
  | fillText (text : String) (x y : α)
  | beginPath
  | closePath
  | fill
  | stroke
  | save
  | restore
  | moveTo (x y : α)
  | lineTo (x y : α)
  | arc (x y r startAngle endAngle : α)
  | translate (x y : α)
  | rotate (angle : α)
  deriving DecidableEq, Repr

/-- Messages sent with `this.socket.emit`.  `playerMoveNaN` is the message `playerMove`
whose `rotation` is `NaN`. -/
inductive Msg (α : Type) where
  | playerShoot
  | playerMove (rotation : α)
  | playerMoveNaN
  deriving DecidableEq, Repr

/-- The three status elements of the page, by element id. -/
inductive StatusField where
  | score
  | health
  | players
  deriving DecidableEq, Repr

/-- One observable action of the client on its environment. -/
inductive Effect (α : Type) where
  | draw (op : DrawOp α)
  | emit (m : Msg α)
  | setText (field : StatusField) (text : String)
  | requestAnimationFrame
  deriving DecidableEq, Repr

/-- An entry of `gameState.players`, with the fields the client reads. -/
structure Player (α : Type) where
  x : α
  y : α
  rotation : α
  color : String
  health : Int
  score : Int
  deriving DecidableEq, Repr

/-- An entry of `gameState.bullets`. -/
structure Bullet (α : Type) where
  x : α
  y : α
  deriving DecidableEq, Repr

/-- An entry of `gameState.asteroids`. -/
structure Asteroid (α : Type) where
  x : α
  y : α
  size : α
  rotation : α
  deriving DecidableEq, Repr

/-- The payload of a `gameState` message.  `players` is the object keyed by socket id,
given as its list of entries in enumeration order. -/
structure GameState (α : Type) where
  players : List (String × Player α)
  bullets : List (Bullet α)
  asteroids : List (Asteroid α)
  deriving DecidableEq, Repr

/-- The value of the property read `players[id]`: an own entry of the snapshot, a member
inherited from `Object.prototype`, or `undefined`. -/
inductive PlayerSlot (α : Type) where
  | own (player : Player α)
  | inherited
  | undefined
  deriving DecidableEq, Repr

/-- The pointer position `this.mouse`. -/
structure Mouse (α : Type) where
  x : α
  y : α
  deriving DecidableEq, Repr

/-- The state of a `GameClient` together with the environment it acts on. -/
structure GameClient (α : Type) where
  /-- `this.gameState`; `none` is `null`. -/
  gameState : Option (GameState α)
  /-- `this.keys`. -/
  keys : List (String × Bool)
  /-- `this.mouse`. -/
  mouse : Mouse α
  /-- `this.socket.id`. -/
  socketId : String
  /-- `this.canvas.width`. -/
  width : Nat
  /-- `this.canvas.height`. -/
  height : Nat
  /-- `textContent` of the element `score`. -/
  scoreText : String
  /-- `textContent` of the element `health`. -/
  healthText : String
  /-- `textContent` of the element `players`. -/
  playersText : String
  /-- Number of calls of `Math.random()` made so far. -/
  randCalls : Nat
  /-- Every call made on the context, the socket, the status elements and the scheduler. -/
  log : List (Effect α)
  deriving DecidableEq, Repr

variable {α : Type}

/-- One call on `this.ctx`. -/
def ctxCall (c : GameClient α) (op : DrawOp α) : GameClient α :=
  { c with log := c.log ++ [Effect.draw op] }

/-- The call `this.socket.emit(...)`. -/
def socketEmit (c : GameClient α) (m : Msg α) : GameClient α :=
  { c with log := c.log ++ [Effect.emit m] }

/-- The assignment `document.getElementById(id).textContent = text`. -/
def setTextContent (c : GameClient α) (field : StatusField) (text : String) : GameClient α :=
  match field with
  | StatusField.score =>
    { c with scoreText := text, log := c.log ++ [Effect.setText StatusField.score text] }
  | StatusField.health =>
    { c with healthText := text, log := c.log ++ [Effect.setText StatusField.health text] }
  | StatusField.players =>
    { c with playersText := text, log := c.log ++ [Effect.setText StatusField.players text] }

/-- The names of the members that every plain object inherits from `Object.prototype`. -/
def objectPrototypeKeys : List String :=
  ["constructor", "__defineGetter__", "__defineSetter__", "hasOwnProperty",
    "__lookupGetter__", "__lookupSetter__", "isPrototypeOf", "propertyIsEnumerable",
    "toString", "valueOf", "__proto__", "toLocaleString"]

/-- The property read `players[id]` on the `players` object of a snapshot. -/
def getPlayer (players : List (String × Player α)) (id : String) : PlayerSlot α :=
  match players.lookup id with
  | some player => PlayerSlot.own player
  | none => if id ∈ objectPrototypeKeys then PlayerSlot.inherited else PlayerSlot.undefined

/-- The loop `for (let i = 0; i < n; i++) body`. -/
def forLoop {σ : Type} (n : Nat) (body : Nat → σ → σ) (s : σ) : σ :=
  match n with
  | 0 => s
  | k + 1 => body k (forLoop k body s)

/-- The method `updateUI`. -/
def updateUI (c : GameClient α) : GameClient α :=
  match c.gameState with
  | none => c
  | some gs =>
    match getPlayer gs.players c.socketId with
    | PlayerSlot.undefined => c
    | PlayerSlot.own player =>
      let c := setTextContent c StatusField.score ("Score: " ++ toString player.score)
      let c := setTextContent c StatusField.health
        ("Health: " ++ toString (max 0 player.health))
      setTextContent c StatusField.players
        ("Players: " ++ toString (gs.players.map Prod.fst).length)
    | PlayerSlot.inherited =>
      let c := setTextContent c StatusField.score "Score: undefined"
      let c := setTextContent c StatusField.health "Health: NaN"
      setTextContent c StatusField.players
        ("Players: " ++ toString (gs.players.map Prod.fst).length)

/-- The method `sendInput`. -/
def sendInput [Field α] (M : JSMath α) (c : GameClient α) : GameClient α :=
  match c.gameState with
  | none => c
  | some gs =>
    match getPlayer gs.players c.socketId with
    | PlayerSlot.undefined => c
    | PlayerSlot.own player =>
      let centerX := player.x
      let centerY := player.y
      let dx := c.mouse.x - centerX
      let dy := c.mouse.y - centerY
      let rotation := M.atan2 dy dx
      socketEmit c (Msg.playerMove rotation)
    | PlayerSlot.inherited => socketEmit c Msg.playerMoveNaN

/-- The method `drawStars`. -/
def drawStars [Field α] (c : GameClient α) : GameClient α :=
  let c := ctxCall c (DrawOp.setFillStyle "white")
  forLoop 100 (fun i c =>
    let x := (i * 123) % c.width
    let y := (i * 321) % c.height
    ctxCall c (DrawOp.fillRect (x : α) (y : α) 1 1)) c

/-- The method `drawShip`. -/
def drawShip [Field α] (c : GameClient α) (x y rotation : α) (color : String)
    (health : α) : GameClient α :=
  let c := ctxCall c DrawOp.save
  let c := ctxCall c (DrawOp.translate x y)
  let c := ctxCall c (DrawOp.rotate rotation)
  let c := ctxCall c (DrawOp.setFillStyle color)
  let c := ctxCall c DrawOp.beginPath
  let c := ctxCall c (DrawOp.moveTo 0 (-15))
  let c := ctxCall c (DrawOp.lineTo 10 10)
  let c := ctxCall c (DrawOp.lineTo 0 5)
  let c := ctxCall c (DrawOp.lineTo (-10) 10)
  let c := ctxCall c DrawOp.closePath
  let c := ctxCall c DrawOp.fill
  let c := ctxCall c (DrawOp.setFillStyle "red")
  let c := ctxCall c (DrawOp.fillRect (-15) 15 30 3)
  let c := ctxCall c (DrawOp.setFillStyle "green")
  let c := ctxCall c (DrawOp.fillRect (-15) 15 (30 * (health / 100)) 3)
  ctxCall c DrawOp.restore

/-- The method `drawAsteroid`. -/
def drawAsteroid [Field α] (M : JSMath α) (c : GameClient α) (x y size rotation : α) :
    GameClient α :=
  let c := ctxCall c DrawOp.save
  let c := ctxCall c (DrawOp.translate x y)
  let c := ctxCall c (DrawOp.rotate rotation)
  let c := ctxCall c (DrawOp.setStrokeStyle "#888")
  let c := ctxCall c (DrawOp.setLineWidth 2)
  let c := ctxCall c DrawOp.beginPath
  let c := forLoop 8 (fun i c =>
    let angle := ((i : α) / 8) * M.PI * 2
    let radius := size * (0.8 + M.random c.randCalls * 0.4)
    let c := { c with randCalls := c.randCalls + 1 }
    let px := M.cos angle * radius
    let py := M.sin angle * radius
    if i = 0 then ctxCall c (DrawOp.moveTo px py) else ctxCall c (DrawOp.lineTo px py)) c
  let c := ctxCall c DrawOp.closePath
  let c := ctxCall c DrawOp.stroke
  ctxCall c DrawOp.restore

/-- The method `render`. -/
def render [Field α] (M : JSMath α) (c : GameClient α) : GameClient α :=
  match c.gameState with
  | none => c
  | some gs =>
    let c := ctxCall c (DrawOp.setFillStyle "#001122")
    let c := ctxCall c (DrawOp.fillRect 0 0 (c.width : α) (c.height : α))
    let c := drawStars c
    let c := (gs.players.map Prod.snd).foldl (fun c player =>
      let c := drawShip c player.x player.y player.rotation player.color
        (player.health : α)
      let c := ctxCall c (DrawOp.setFillStyle "white")
      let c := ctxCall c (DrawOp.setFont "12px Arial")
      let c := ctxCall c (DrawOp.setTextAlign "center")
      ctxCall c (DrawOp.fillText ("Score: " ++ toString player.score) player.x
        (player.y - 25))) c
    let c := gs.bullets.foldl (fun c bullet =>
      let c := ctxCall c (DrawOp.setFillStyle "#ffff00")
      let c := ctxCall c DrawOp.beginPath
      let c := ctxCall c (DrawOp.arc bullet.x bullet.y 2 0 (M.PI * 2))
      ctxCall c DrawOp.fill) c
    gs.asteroids.foldl (fun c asteroid =>
      drawAsteroid M c asteroid.x asteroid.y asteroid.size asteroid.rotation) c

/-- The call `requestAnimationFrame(() => this.gameLoop())`. -/
def requestAnimationFrame (c : GameClient α) : GameClient α :=
  { c with log := c.log ++ [Effect.requestAnimationFrame] }

/-- One run of the method `gameLoop`. -/
def gameLoop [Field α] (M : JSMath α) (c : GameClient α) : GameClient α :=
  let c := sendInput M c
  let c := render M c
  requestAnimationFrame c

/-- The `click` listener registered on the canvas. -/
def onClick (c : GameClient α) : GameClient α :=
  socketEmit c Msg.playerShoot

/-- The `mousemove` listener registered on the canvas. -/
def onMouseMove [Field α] (c : GameClient α) (clientX clientY rectLeft rectTop : α) :
    GameClient α :=
  { c with mouse := { x := clientX - rectLeft, y := clientY - rectTop } }

/-- The `gameState` listener registered on the socket. -/
def onGameState (c : GameClient α) (gameState : GameState α) : GameClient α :=
  updateUI { c with gameState := some gameState }

/-- The field assignments of the constructor, for a page whose canvas is `width` by `height`
and whose status elements show the given texts. -/
def construct [Field α] (socketId : String) (width height : Nat)
    (scoreText healthText playersText : String) : GameClient α :=
  { gameState := none, keys := [], mouse := { x := 0, y := 0 }, socketId := socketId,
    width := width, height := height, scoreText := scoreText, healthText := healthText,
    playersText := playersText, randCalls := 0, log := [] }

/-! ## Closed forms, the tick as specified, and concrete inputs -/

/-- Appending context calls to the log of a client that meanwhile called `Math.random()`
`k` times. -/
def extend (c : GameClient α) (ops : List (DrawOp α)) (k : Nat) : GameClient α :=
  { c with log := c.log ++ ops.map Effect.draw, randCalls := c.randCalls + k }

/-- The context calls of one `drawStars()` on a `W` by `H` canvas. -/
def starOps [Field α] (W H : Nat) : List (DrawOp α) :=
  DrawOp.setFillStyle "white" ::
    (List.range 100).map (fun i =>
      DrawOp.fillRect (((i * 123) % W : Nat) : α) (((i * 321) % H : Nat) : α) 1 1)

/-- The context calls of `drawShip` followed by the score label, for one player. -/
def shipOps [Field α] (p : Player α) : List (DrawOp α) :=
  [DrawOp.save, DrawOp.translate p.x p.y, DrawOp.rotate p.rotation,
    DrawOp.setFillStyle p.color, DrawOp.beginPath, DrawOp.moveTo 0 (-15),
    DrawOp.lineTo 10 10, DrawOp.lineTo 0 5, DrawOp.lineTo (-10) 10, DrawOp.closePath,
    DrawOp.fill, DrawOp.setFillStyle "red", DrawOp.fillRect (-15) 15 30 3,
    DrawOp.setFillStyle "green", DrawOp.fillRect (-15) 15 (30 * ((p.health : α) / 100)) 3,
    DrawOp.restore, DrawOp.setFillStyle "white", DrawOp.setFont "12px Arial",
    DrawOp.setTextAlign "center",
    DrawOp.fillText ("Score: " ++ toString p.score) p.x (p.y - 25)]

/-- The context calls drawing one bullet. -/
def bulletOps [Field α] (M : JSMath α) (b : Bullet α) : List (DrawOp α) :=
  [DrawOp.setFillStyle "#ffff00", DrawOp.beginPath, DrawOp.arc b.x b.y 2 0 (M.PI * 2),
    DrawOp.fill]

/-- The `i`-th vertex of an asteroid outline when `Math.random()` is at its `r`-th call. -/
def vertexOp [Field α] (M : JSMath α) (size : α) (r i : Nat) : DrawOp α :=
  if i = 0 then
    DrawOp.moveTo (M.cos (((i : α) / 8) * M.PI * 2) * (size * (0.8 + M.random r * 0.4)))
      (M.sin (((i : α) / 8) * M.PI * 2) * (size * (0.8 + M.random r * 0.4)))
  else
    DrawOp.lineTo (M.cos (((i : α) / 8) * M.PI * 2) * (size * (0.8 + M.random r * 0.4)))
      (M.sin (((i : α) / 8) * M.PI * 2) * (size * (0.8 + M.random r * 0.4)))

/-- The context calls of `drawAsteroid` started after `r` calls of `Math.random()`. -/
def asteroidOps [Field α] (M : JSMath α) (r : Nat) (a : Asteroid α) : List (DrawOp α) :=
  [DrawOp.save, DrawOp.translate a.x a.y, DrawOp.rotate a.rotation,
    DrawOp.setStrokeStyle "#888", DrawOp.setLineWidth 2, DrawOp.beginPath]
  ++ (List.range 8).map (fun i => vertexOp M a.size (r + i) i)
  ++ [DrawOp.closePath, DrawOp.stroke, DrawOp.restore]

/-- The context calls drawing a list of asteroids, the first one started after `r` calls of
`Math.random()`. -/
def asteroidsOps [Field α] (M : JSMath α) (r : Nat) : List (Asteroid α) → List (DrawOp α)
  | [] => []
  | a :: rest => asteroidOps M r a ++ asteroidsOps M (r + 8) rest

/-- The context calls of one `render()` of the snapshot `gs` on a `W` by `H` canvas. -/
def renderOps [Field α] (M : JSMath α) (r W H : Nat) (gs : GameState α) : List (DrawOp α) :=
  [DrawOp.setFillStyle "#001122", DrawOp.fillRect 0 0 (W : α) (H : α)]
  ++ starOps W H
  ++ ((gs.players.map Prod.snd).map shipOps).flatten
  ++ (gs.bullets.map (bulletOps M)).flatten
  ++ asteroidsOps M r gs.asteroids

/-- A `Math` object over `ℚ` whose functions are rational stand-ins; it serves to evaluate
the client at concrete inputs (the theorems below hold for every `Math` object). -/
def ratMath : JSMath ℚ :=
  { atan2 := fun y x => y - x, cos := fun _ => 1, sin := fun _ => 0, PI := 355 / 113,
    random := fun n => 1 / ((n : ℚ) + 2) }

/-- A player entry at `(x, y)` with the given health and score. -/
def playerAt [Field α] (x y : α) (health score : Int) : Player α :=
  { x := x, y := y, rotation := 0, color := "#00ff00", health := health, score := score }

/-- A freshly constructed client with socket id `me` on an 800 by 600 canvas. -/
def freshClient [Field α] : GameClient α :=
  construct "me" 800 600 "Score: 0" "Health: 100" "Players: 0"

/-- A snapshot that holds only the local player `me`. -/
def soloState [Field α] (x y : α) (health score : Int) : GameState α :=
  { players := [("me", playerAt x y health score)], bullets := [], asteroids := [] }

/-- A snapshot without the local player: one other player, two bullets, two asteroids. -/
def foreignState [Field α] : GameState α :=
  { players := [("other", playerAt 10 20 80 3)],
    bullets := [{ x := 1, y := 2 }, { x := 3, y := 4 }],
    asteroids := [{ x := 5, y := 6, size := 7, rotation := 0 },
      { x := 8, y := 9, size := 10, rotation := 1 }] }

/-- A snapshot with three players, the local one among them. -/
def trioState [Field α] (health : Int) : GameState α :=
  { players := [("a", playerAt 1 1 100 0), ("me", playerAt 2 2 health 7),
      ("b", playerAt 3 3 50 1)],
    bullets := [], asteroids := [] }

/-- The context calls of `drawShip` with a health-bar foreground of width `w`. -/
def shipBody [Field α] (x y rotation : α) (color : String) (w : α) : List (DrawOp α) :=
  [DrawOp.save, DrawOp.translate x y, DrawOp.rotate rotation, DrawOp.setFillStyle color,
    DrawOp.beginPath, DrawOp.moveTo 0 (-15), DrawOp.lineTo 10 10, DrawOp.lineTo 0 5,
    DrawOp.lineTo (-10) 10, DrawOp.closePath, DrawOp.fill, DrawOp.setFillStyle "red",
    DrawOp.fillRect (-15) 15 30 3, DrawOp.setFillStyle "green", DrawOp.fillRect (-15) 15 w 3,
    DrawOp.restore]

/-- The tick as the specification words it: emission, render, status projection, then the
request for the next frame. -/
def claimedTick [Field α] (M : JSMath α) (c : GameClient α) : GameClient α :=
  requestAnimationFrame (updateUI (render M (sendInput M c)))

/-- The client after construction (which runs the first tick) and the receipt of a snapshot
that holds the local player with score 5. -/
def runningClient : GameClient ℚ :=
  onGameState (gameLoop ratMath freshClient) (soloState 100 100 100 5)

/-- The messages that `sendInput` emits for pointer `mouse`, socket id `id` and held
snapshot `gs`. -/
def moveMsgs [Field α] (M : JSMath α) (mouse : Mouse α) (id : String) (gs : GameState α) :
    List (Msg α) :=
  match getPlayer gs.players id with
  | PlayerSlot.undefined => []
  | PlayerSlot.own p => [Msg.playerMove (M.atan2 (mouse.y - p.y) (mouse.x - p.x))]
  | PlayerSlot.inherited => [Msg.playerMoveNaN]

/-- The status writes that `updateUI` makes for socket id `id` and held snapshot `gs`. -/
def statusEffects (id : String) (gs : GameState α) : List (Effect α) :=
  match getPlayer gs.players id with
  | PlayerSlot.undefined => []
  | PlayerSlot.own p =>
    [Effect.setText StatusField.score ("Score: " ++ toString p.score),
      Effect.setText StatusField.health ("Health: " ++ toString (max 0 p.health)),
      Effect.setText StatusField.players ("Players: " ++ toString gs.players.length)]
  | PlayerSlot.inherited =>
    [Effect.setText StatusField.score "Score: undefined",
      Effect.setText StatusField.health "Health: NaN",
      Effect.setText StatusField.players ("Players: " ++ toString gs.players.length)]

/-- A client whose socket id is `constructor`, after construction (which runs the first
tick). -/
def inheritedIdFresh : GameClient ℚ :=
  gameLoop ratMath (construct "constructor" 800 600 "Score: 0" "Health: 100" "Players: 0")

/-- The client `inheritedIdFresh` after the receipt of a snapshot that does not contain its
id. -/
def inheritedIdClient : GameClient ℚ :=
  onGameState inheritedIdFresh foreignState

/-! ## Lemmas: the methods in closed form -/

theorem extend_nil (c : GameClient α) : extend c [] 0 = c := by
  cases c; simp [extend]

theorem extend_extend (c : GameClient α) (xs ys : List (DrawOp α)) (j k : Nat) :
    extend (extend c xs j) ys k = extend c (xs ++ ys) (j + k) := by
  cases c; simp [extend, Nat.add_assoc]

theorem ctxCall_eq_extend (c : GameClient α) (op : DrawOp α) :
    ctxCall c op = extend c [op] 0 := by
  cases c; simp [extend, ctxCall]

theorem forLoop_succ {σ : Type} (n : Nat) (body : Nat → σ → σ) (s : σ) :
    forLoop (n + 1) body s = body n (forLoop n body s) := rfl

theorem forLoop_stars [Field α] (n : Nat) (c : GameClient α) :
    forLoop n (fun i c =>
      let x := (i * 123) % c.width
      let y := (i * 321) % c.height
      ctxCall c (DrawOp.fillRect (x : α) (y : α) 1 1)) c
    = extend c ((List.range n).map (fun i =>
      DrawOp.fillRect (((i * 123) % c.width : Nat) : α) (((i * 321) % c.height : Nat) : α)
        1 1)) 0 := by
  induction n with
  | zero => simp [forLoop, extend_nil]
  | succ k ih =>
    rw [forLoop_succ, ih]
    simp only [ctxCall_eq_extend, extend_extend, List.range_succ, List.map_append,
      List.map_cons, List.map_nil]
    rfl

theorem extend_width (c : GameClient α) (ops : List (DrawOp α)) (k : Nat) :
    (extend c ops k).width = c.width := rfl

theorem extend_height (c : GameClient α) (ops : List (DrawOp α)) (k : Nat) :
    (extend c ops k).height = c.height := rfl

theorem extend_randCalls (c : GameClient α) (ops : List (DrawOp α)) (k : Nat) :
    (extend c ops k).randCalls = c.randCalls + k := rfl

theorem drawStars_eq [Field α] (c : GameClient α) :
    drawStars c = extend c (starOps c.width c.height) 0 := by
  unfold drawStars
  refine (forLoop_stars 100 _).trans ?_
  rw [ctxCall_eq_extend, extend_extend]
  simp only [extend_width, extend_height, starOps, List.singleton_append]

theorem drawShip_eq [Field α] (c : GameClient α) (p : Player α) :
    ctxCall (ctxCall (ctxCall (ctxCall
      (drawShip c p.x p.y p.rotation p.color (p.health : α))
      (DrawOp.setFillStyle "white")) (DrawOp.setFont "12px Arial"))
      (DrawOp.setTextAlign "center"))
      (DrawOp.fillText ("Score: " ++ toString p.score) p.x (p.y - 25))
    = extend c (shipOps p) 0 := by
  simp only [drawShip, ctxCall_eq_extend, extend_extend, shipOps, List.cons_append,
    List.nil_append]

theorem foldl_extend {β : Type} (g : GameClient α → β → GameClient α)
    (f : β → List (DrawOp α)) (hg : ∀ c x, g c x = extend c (f x) 0) (xs : List β)
    (c : GameClient α) :
    xs.foldl g c = extend c (xs.map f).flatten 0 := by
  induction xs generalizing c with
  | nil => simp [extend_nil]
  | cons x rest ih =>
    simp only [List.foldl_cons, hg, ih, extend_extend, List.map_cons, List.flatten_cons]

theorem forLoop_vertices [Field α] (M : JSMath α) (size : α) (n : Nat) (c : GameClient α) :
    forLoop n (fun i c =>
      let angle := ((i : α) / 8) * M.PI * 2
      let radius := size * (0.8 + M.random c.randCalls * 0.4)
      let c := { c with randCalls := c.randCalls + 1 }
      let px := M.cos angle * radius
      let py := M.sin angle * radius
      if i = 0 then ctxCall c (DrawOp.moveTo px py) else ctxCall c (DrawOp.lineTo px py)) c
    = extend c ((List.range n).map (fun i => vertexOp M size (c.randCalls + i) i)) n := by
  induction n with
  | zero => simp [forLoop, extend_nil]
  | succ k ih =>
    rw [forLoop_succ, ih]
    cases c
    by_cases hk : k = 0 <;>
      simp [hk, extend, ctxCall, vertexOp, List.range_succ, Nat.add_assoc]

theorem drawAsteroid_eq [Field α] (M : JSMath α) (c : GameClient α) (a : Asteroid α) :
    drawAsteroid M c a.x a.y a.size a.rotation = extend c (asteroidOps M c.randCalls a) 8 := by
  unfold drawAsteroid
  simp only [ctxCall_eq_extend, extend_extend]
  refine (congrArg (fun d => extend d _ _) (forLoop_vertices M a.size 8 _)).trans ?_
  simp only [extend_extend, extend_randCalls, asteroidOps, List.cons_append,
    List.nil_append, List.append_assoc, Nat.add_zero, Nat.zero_add]

theorem foldl_drawAsteroid [Field α] (M : JSMath α) (rocks : List (Asteroid α))
    (c : GameClient α) :
    rocks.foldl (fun c asteroid =>
      drawAsteroid M c asteroid.x asteroid.y asteroid.size asteroid.rotation) c
    = extend c (asteroidsOps M c.randCalls rocks) (8 * rocks.length) := by
  induction rocks generalizing c with
  | nil => simp [asteroidsOps, extend_nil]
  | cons a rest ih =>
    have harith : 8 + 8 * rest.length = 8 * (rest.length + 1) := by omega
    rw [List.foldl_cons, ih, drawAsteroid_eq, extend_extend, extend_randCalls, harith]
    rfl

theorem render_eq [Field α] (M : JSMath α) (c : GameClient α) (gs : GameState α)
    (h : c.gameState = some gs) :
    render M c
      = extend c (renderOps M c.randCalls c.width c.height gs) (8 * gs.asteroids.length) := by
  unfold render
  simp only [h]
  rw [foldl_drawAsteroid,
    foldl_extend _ (bulletOps M) (fun c b => by
      simp only [ctxCall_eq_extend, extend_extend, bulletOps, List.cons_append,
        List.nil_append]),
    foldl_extend _ shipOps (fun c p => drawShip_eq c p), drawStars_eq]
  simp only [ctxCall_eq_extend, extend_extend, extend_randCalls, extend_width,
    extend_height, renderOps, List.append_assoc, Nat.add_zero, Nat.zero_add,
    List.cons_append, List.nil_append]

theorem render_noop [Field α] (M : JSMath α) (c : GameClient α)
    (h : c.gameState = none) : render M c = c := by
  unfold render
  rw [h]


theorem getPlayer_own (players : List (String × Player α)) (id : String) (p : Player α)
    (h : players.lookup id = some p) : getPlayer players id = PlayerSlot.own p := by
  simp only [getPlayer, h]

theorem getPlayer_undefined (players : List (String × Player α)) (id : String)
    (h : players.lookup id = none) (hid : id ∉ objectPrototypeKeys) :
    getPlayer players id = PlayerSlot.undefined := by
  simp only [getPlayer, h, hid, if_false]

theorem getPlayer_inherited (players : List (String × Player α)) (id : String)
    (h : players.lookup id = none) (hid : id ∈ objectPrototypeKeys) :
    getPlayer players id = PlayerSlot.inherited := by
  simp only [getPlayer, h, hid, if_true]

theorem updateUI_frame (c : GameClient α) :
    (updateUI c).gameState = c.gameState ∧ (updateUI c).mouse = c.mouse ∧
      (updateUI c).socketId = c.socketId ∧ (updateUI c).width = c.width ∧
      (updateUI c).height = c.height ∧ (updateUI c).randCalls = c.randCalls := by
  rcases c with ⟨gameState, keys, mouse, socketId, width, height, scoreText, healthText,
    playersText, randCalls, log⟩
  unfold updateUI
  cases gameState with
  | none => exact ⟨rfl, rfl, rfl, rfl, rfl, rfl⟩
  | some gs =>
    simp only
    cases getPlayer gs.players socketId with
    | undefined => exact ⟨rfl, rfl, rfl, rfl, rfl, rfl⟩
    | own p => exact ⟨rfl, rfl, rfl, rfl, rfl, rfl⟩
    | inherited => exact ⟨rfl, rfl, rfl, rfl, rfl, rfl⟩


theorem updateUI_log (c : GameClient α) :
    (updateUI c).log = c.log ++
      (match c.gameState with
        | none => []
        | some gs => statusEffects c.socketId gs) := by
  rcases c with ⟨gameState, keys, mouse, socketId, width, height, scoreText, healthText,
    playersText, randCalls, log⟩
  unfold updateUI
  cases gameState with
  | none => simp
  | some gs =>
    simp only [statusEffects]
    cases getPlayer gs.players socketId with
    | undefined => simp
    | own p => simp [setTextContent]
    | inherited => simp [setTextContent]


theorem sendInput_log [Field α] (M : JSMath α) (c : GameClient α) :
    sendInput M c = { c with log := c.log ++
      (match c.gameState with
        | none => []
        | some gs => (moveMsgs M c.mouse c.socketId gs).map Effect.emit) } := by
  rcases c with ⟨gameState, keys, mouse, socketId, width, height, scoreText, healthText,
    playersText, randCalls, log⟩
  unfold sendInput
  cases gameState with
  | none => simp
  | some gs =>
    simp only [moveMsgs]
    cases getPlayer gs.players socketId with
    | undefined => simp
    | own p => simp [socketEmit]
    | inherited => simp [socketEmit]


theorem render_extend [Field α] (M : JSMath α) (c : GameClient α) :
    ∃ (draws : List (DrawOp α)) (k : Nat), render M c = extend c draws k := by
  cases hg : c.gameState with
  | none => exact ⟨[], 0, by rw [extend_nil]; exact render_noop M c hg⟩
  | some gs => exact ⟨_, _, render_eq M c gs hg⟩

theorem render_sendInput_frame [Field α] (M : JSMath α) (c : GameClient α) :
    (render M (sendInput M c)).gameState = c.gameState ∧
      (render M (sendInput M c)).socketId = c.socketId := by
  obtain ⟨draws, k, h⟩ := render_extend M (sendInput M c)
  rw [h, sendInput_log]
  exact ⟨rfl, rfl⟩

theorem claimedTick_log [Field α] (M : JSMath α) (c : GameClient α) (gs : GameState α)
    (p : Player α) (hgs : c.gameState = some gs)
    (hp : gs.players.lookup c.socketId = some p) :
    (claimedTick M c).log
      = (render M (sendInput M c)).log
        ++ [Effect.setText StatusField.score ("Score: " ++ toString p.score),
          Effect.setText StatusField.health ("Health: " ++ toString (max 0 p.health)),
          Effect.setText StatusField.players ("Players: " ++ toString gs.players.length)]
        ++ [Effect.requestAnimationFrame] := by
  obtain ⟨hg, hid⟩ := render_sendInput_frame M c
  unfold claimedTick requestAnimationFrame
  simp [updateUI_log, hg, hid, hgs, statusEffects, getPlayer_own _ _ _ hp]


theorem onGameState_frame (c : GameClient α) (s : GameState α) :
    (onGameState c s).gameState = some s ∧ (onGameState c s).mouse = c.mouse ∧
      (onGameState c s).socketId = c.socketId ∧ (onGameState c s).width = c.width ∧
      (onGameState c s).height = c.height ∧ (onGameState c s).randCalls = c.randCalls :=
  updateUI_frame { c with gameState := some s }

theorem effects_of_view [Field α] (M : JSMath α) (c a : GameClient α) (s : GameState α)
    (hg : a.gameState = some s) (hm : a.mouse = c.mouse) (hi : a.socketId = c.socketId)
    (hw : a.width = c.width) (hh : a.height = c.height) (hr : a.randCalls = c.randCalls) :
    (render M a).log
        = a.log ++ (renderOps M c.randCalls c.width c.height s).map Effect.draw ∧
      (sendInput M a).log = a.log ++ (moveMsgs M c.mouse c.socketId s).map Effect.emit ∧
      (updateUI a).log = a.log ++ statusEffects c.socketId s := by
  refine ⟨?_, ?_, ?_⟩
  · rw [render_eq M a s hg, hr, hw, hh]
    rfl
  · rw [sendInput_log]
    simp only [hg, hm, hi]
  · rw [updateUI_log]
    simp only [hg, hi]


theorem gameLoop_log [Field α] (M : JSMath α) (c : GameClient α) :
    ∃ (emits : List (Msg α)) (draws : List (DrawOp α)),
      emits = (match c.gameState with
        | none => []
        | some gs => moveMsgs M c.mouse c.socketId gs) ∧
      (sendInput M c).log = c.log ++ emits.map Effect.emit ∧
      (render M (sendInput M c)).log = (sendInput M c).log ++ draws.map Effect.draw ∧
      (gameLoop M c).log = c.log ++ emits.map Effect.emit ++ draws.map Effect.draw
        ++ [Effect.requestAnimationFrame] ∧
      (c.gameState = none → draws = []) ∧
      (∀ f t, Effect.setText f t ∉ (gameLoop M c).log.drop c.log.length) ∧
      (gameLoop M c).scoreText = c.scoreText ∧ (gameLoop M c).healthText = c.healthText ∧
      (gameLoop M c).playersText = c.playersText ∧
      (gameLoop M c).gameState = c.gameState := by
  have hs := sendInput_log M c
  have hsl : (sendInput M c).log = c.log ++
      (match c.gameState with
        | none => []
        | some gs => moveMsgs M c.mouse c.socketId gs).map Effect.emit := by
    rw [hs]
    cases c.gameState with
    | none => rfl
    | some gs => rfl
  have hsg : (sendInput M c).gameState = c.gameState := by rw [hs]
  have hst : (sendInput M c).scoreText = c.scoreText ∧
      (sendInput M c).healthText = c.healthText ∧
      (sendInput M c).playersText = c.playersText := by rw [hs]; exact ⟨rfl, rfl, rfl⟩
  have hr : ∃ draws : List (DrawOp α), ∃ k : Nat,
      render M (sendInput M c) = extend (sendInput M c) draws k ∧
        (c.gameState = none → draws = []) := by
    cases hg : c.gameState with
    | none =>
      refine ⟨[], 0, ?_, fun _ => rfl⟩
      rw [extend_nil]
      exact render_noop M (sendInput M c) (hsg.trans hg)
    | some gs =>
      exact ⟨_, _, render_eq M (sendInput M c) gs (hsg.trans hg), fun h => by cases h⟩
  obtain ⟨draws, k, hrd, hnone⟩ := hr
  have hgl : (gameLoop M c).log = c.log ++
      (match c.gameState with
        | none => []
        | some gs => moveMsgs M c.mouse c.socketId gs).map Effect.emit
      ++ draws.map Effect.draw ++ [Effect.requestAnimationFrame] := by
    unfold gameLoop
    simp only [hrd, requestAnimationFrame, extend, hsl]
  refine ⟨_, draws, rfl, hsl, by rw [hrd]; rfl, hgl, hnone, ?_, ?_, ?_, ?_, ?_⟩
  · intro f t hmem
    rw [hgl, List.append_assoc, List.append_assoc, List.drop_left] at hmem
    rcases List.mem_append.1 hmem with h | h
    · simp at h
    · rcases List.mem_append.1 h with h | h
      · simp at h
      · simp at h
  · unfold gameLoop; simp only [hrd, requestAnimationFrame, extend]; exact hst.1
  · unfold gameLoop; simp only [hrd, requestAnimationFrame, extend]; exact hst.2.1
  · unfold gameLoop; simp only [hrd, requestAnimationFrame, extend]; exact hst.2.2
  · unfold gameLoop; simp only [hrd, requestAnimationFrame, extend]; exact hsg

/-! ## The claims -/

/-- C1: while no snapshot has been received (`gameState` is `null`), `render` and
`sendInput` return the client exactly as it was, for every key and pointer state and every
socket id: no call on the canvas context, no message, no change of state. -/
theorem render_sendInput_without_snapshot [Field α] (M : JSMath α) (c : GameClient α)
    (h : c.gameState = none) :
    render M c = c ∧ sendInput M c = c ∧
      (render M c).log = c.log ∧ (sendInput M c).log = c.log := by
  have hr : render M c = c := by unfold render; rw [h]
  have hs : sendInput M c = c := by unfold sendInput; rw [h]
  exact ⟨hr, hs, by rw [hr], by rw [hs]⟩

theorem render_sendInput_without_snapshot_witness :
    (freshClient : GameClient ℚ).gameState = none ∧
      (render ratMath freshClient = freshClient ∧ sendInput ratMath freshClient = freshClient ∧
        (render ratMath freshClient).log = (freshClient : GameClient ℚ).log ∧
        (sendInput ratMath freshClient).log = (freshClient : GameClient ℚ).log) :=
  ⟨rfl, render_sendInput_without_snapshot ratMath freshClient rfl⟩

/-- C2: when the snapshot holds the local player, `sendInput` appends exactly one effect,
the message `playerMove` whose rotation is `atan2 (mouse.y - player.y) (mouse.x - player.x)`,
and changes nothing else.  With the real two-argument arctangent as `atan2`, a player at
`(100, 100)` and the pointer at `(150, 100)` give rotation `0`, the pointer at `(100, 50)`
gives `-π/2`. -/
theorem sendInput_emits_playerMove [Field α] (M : JSMath α) (c : GameClient α)
    (gs : GameState α) (player : Player α) (hgs : c.gameState = some gs)
    (hp : gs.players.lookup c.socketId = some player) :
    sendInput M c
        = { c with log := c.log ++ [Effect.emit
              (Msg.playerMove (M.atan2 (c.mouse.y - player.y) (c.mouse.x - player.x)))] } ∧
      (∀ R : JSMath ℝ, (∀ y x : ℝ, R.atan2 y x = Complex.arg ⟨x, y⟩) →
        (sendInput R (onMouseMove (onGameState freshClient (soloState 100 100 100 0))
            150 100 0 0)).log
          = (onGameState freshClient (soloState (100 : ℝ) 100 100 0)).log
              ++ [Effect.emit (Msg.playerMove 0)] ∧
        (sendInput R (onMouseMove (onGameState freshClient (soloState 100 100 100 0))
            100 50 0 0)).log
          = (onGameState freshClient (soloState (100 : ℝ) 100 100 0)).log
              ++ [Effect.emit (Msg.playerMove (-(Real.pi / 2)))]) := by
  refine ⟨?_, ?_⟩
  · have h : sendInput M c = socketEmit c
        (Msg.playerMove (M.atan2 (c.mouse.y - player.y) (c.mouse.x - player.x))) := by
      unfold sendInput
      simp only [hgs, getPlayer_own _ _ _ hp]
    rw [h]
    rfl
  · intro R hR
    have h0 : Complex.arg ⟨(50 : ℝ), 0⟩ = 0 := by
      have : (⟨(50 : ℝ), 0⟩ : ℂ) = ((50 : ℝ) : ℂ) := rfl
      rw [this, Complex.arg_ofReal_of_nonneg (by norm_num)]
    have h1 : Complex.arg ⟨(0 : ℝ), -50⟩ = -(Real.pi / 2) := by
      have : (⟨(0 : ℝ), -50⟩ : ℂ) = ((50 : ℝ) : ℂ) * (-Complex.I) := by
        apply Complex.ext <;> simp
      rw [this, Complex.arg_real_mul _ (by norm_num), Complex.arg_neg_I]
    have hl : ∀ p : Player ℝ, List.lookup "me" [("me", p)] = some p := by
      intro p; simp [List.lookup]
    constructor
    · simp only [sendInput, onMouseMove, onGameState, updateUI, freshClient, construct,
        soloState, getPlayer, hl, setTextContent, socketEmit, playerAt, hR]
      norm_num [h0]
    · simp only [sendInput, onMouseMove, onGameState, updateUI, freshClient, construct,
        soloState, getPlayer, hl, setTextContent, socketEmit, playerAt, hR]
      norm_num [h1]

theorem sendInput_emits_playerMove_witness :
    (onMouseMove (onGameState freshClient (soloState 100 100 100 0))
        150 100 0 0 : GameClient ℚ).gameState = some (soloState 100 100 100 0) ∧
      (soloState (100 : ℚ) 100 100 0).players.lookup "me" = some (playerAt 100 100 100 0) ∧
      (sendInput ratMath (onMouseMove (onGameState freshClient (soloState 100 100 100 0))
        150 100 0 0)).log
        = (onGameState freshClient (soloState (100 : ℚ) 100 100 0)).log
            ++ [Effect.emit (Msg.playerMove (ratMath.atan2 (100 - 100) (150 - 100)))] := by
  refine ⟨rfl, rfl, ?_⟩
  have h := (sendInput_emits_playerMove ratMath
    (onMouseMove (onGameState freshClient (soloState 100 100 100 0)) 150 100 0 0)
    (soloState 100 100 100 0) (playerAt 100 100 100 0) rfl rfl).1
  rw [h]
  simp [onMouseMove, playerAt]

/-- C4: when the snapshot holds the local player, `updateUI` sets the three status fields
to `Score: {score}`, `Health: {max(0, health)}` and `Players: {number of entries}`, and
leaves the snapshot as it is: a health of `-20` is displayed as `Health: 0` while the
stored health stays `-20`, and three entries are displayed as `Players: 3`. -/
theorem updateUI_sets_status (c : GameClient α) (gs : GameState α) (player : Player α)
    (hgs : c.gameState = some gs) (hp : gs.players.lookup c.socketId = some player) :
    (updateUI c).scoreText = "Score: " ++ toString player.score ∧
      (updateUI c).healthText = "Health: " ++ toString (max 0 player.health) ∧
      (updateUI c).playersText = "Players: " ++ toString gs.players.length ∧
      (updateUI c).gameState = some gs ∧
      (player.health = -20 → (updateUI c).healthText = "Health: 0" ∧
        ((updateUI c).gameState.bind (fun g => g.players.lookup c.socketId)).map
          Player.health = some (-20)) ∧
      (gs.players.length = 3 → (updateUI c).playersText = "Players: 3") := by
  have h : updateUI c
      = setTextContent (setTextContent (setTextContent c StatusField.score
          ("Score: " ++ toString player.score)) StatusField.health
          ("Health: " ++ toString (max 0 player.health))) StatusField.players
          ("Players: " ++ toString (gs.players.map Prod.fst).length) := by
    unfold updateUI
    simp only [hgs, getPlayer_own _ _ _ hp]
  have hst : (updateUI c).gameState = some gs := by rw [h]; exact hgs
  refine ⟨by rw [h]; rfl, by rw [h]; rfl, by rw [h]; simp [setTextContent], hst, ?_, ?_⟩
  · intro hh
    refine ⟨?_, ?_⟩
    · rw [h]
      show "Health: " ++ toString (max 0 player.health) = "Health: 0"
      rw [hh]
      rfl
    · rw [hst]
      simp [hp, hh]
  · intro hl
    rw [h]
    show "Players: " ++ toString (gs.players.map Prod.fst).length = "Players: 3"
    rw [List.length_map, hl]
    rfl

theorem updateUI_sets_status_witness :
    (onGameState freshClient (trioState (-20)) : GameClient ℚ).gameState
        = some (trioState (-20)) ∧
      (trioState (-20) : GameState ℚ).players.lookup "me" = some (playerAt 2 2 (-20) 7) ∧
      (updateUI (onGameState freshClient (trioState (-20)) : GameClient ℚ)).scoreText
        = "Score: 7" ∧
      (updateUI (onGameState freshClient (trioState (-20)) : GameClient ℚ)).healthText
        = "Health: 0" ∧
      (updateUI (onGameState freshClient (trioState (-20)) : GameClient ℚ)).playersText
        = "Players: 3" := by
  have h := updateUI_sets_status (onGameState freshClient (trioState (-20)) : GameClient ℚ)
    (trioState (-20)) (playerAt 2 2 (-20) 7) rfl rfl
  exact ⟨rfl, rfl, h.1, (h.2.2.2.2.1 rfl).1, h.2.2.2.2.2 rfl⟩

/-- C5: for every health value, also above 100 and below 0, `drawShip` draws the health-bar
background with width `30` and the foreground with width `30 * (health / 100)`, unclamped:
over the rationals health `50` gives width `15`, health `150` gives `45` and health `-20`
gives `-6`. -/
theorem drawShip_health_bar [Field α] (c : GameClient α) (x y rotation : α) (color : String)
    (health : α) (d : GameClient ℚ) (u v r : ℚ) :
    (drawShip c x y rotation color health).log
        = c.log ++ (shipBody x y rotation color (30 * (health / 100))).map Effect.draw ∧
      (drawShip d u v r color 50).log = d.log ++ (shipBody u v r color 15).map Effect.draw ∧
      (drawShip d u v r color 150).log = d.log ++ (shipBody u v r color 45).map Effect.draw ∧
      (drawShip d u v r color (-20)).log
        = d.log ++ (shipBody u v r color (-6)).map Effect.draw := by
  have h : ∀ {β : Type} [Field β] (c : GameClient β) (x y rotation health : β),
      (drawShip c x y rotation color health).log
        = c.log ++ (shipBody x y rotation color (30 * (health / 100))).map Effect.draw := by
    intro β _ c x y rotation health
    simp [drawShip, ctxCall, shipBody]
  refine ⟨h c x y rotation health, ?_, ?_, ?_⟩
  · rw [h]; norm_num
  · rw [h]; norm_num
  · rw [h]; norm_num

/-- C7: in every client state the `click` listener appends exactly one effect, the message
`playerShoot` (which carries no payload), and changes nothing else. -/
theorem onClick_emits_playerShoot (c : GameClient α) :
    onClick c = { c with log := c.log ++ [Effect.emit Msg.playerShoot] } ∧
      (onClick c).log = c.log ++ [Effect.emit Msg.playerShoot] :=
  ⟨rfl, rfl⟩

/-- C6: on a canvas of positive width and height `drawStars` sets the fill style and then
plots exactly 100 one-pixel rectangles, the `i`-th at `((i * 123) mod W, (i * 321) mod H)`,
star 0 at `(0, 0)`; in a render the 100 star calls follow the three opening calls and are
the same for any two clients with equal canvas dimensions, whatever their snapshots, pointer
positions, logs and `Math` objects. -/
theorem drawStars_deterministic [Field α] (c : GameClient α) (_hW : 0 < c.width)
    (_hH : 0 < c.height) :
    (drawStars c).log
        = c.log ++ Effect.draw (DrawOp.setFillStyle "white") ::
            (List.range 100).map (fun i => Effect.draw (DrawOp.fillRect
              (((i * 123) % c.width : Nat) : α) (((i * 321) % c.height : Nat) : α) 1 1)) ∧
      ((drawStars c).log.drop (c.log.length + 1)).length = 100 ∧
      ((drawStars c).log.drop (c.log.length + 1)).head?
        = some (Effect.draw (DrawOp.fillRect 0 0 1 1)) ∧
      (∀ (M M' : JSMath α) (c' : GameClient α) (gs gs' : GameState α),
        c.gameState = some gs → c'.gameState = some gs' →
        c'.width = c.width → c'.height = c.height →
        ((render M c).log.drop (c.log.length + 3)).take 100
            = (List.range 100).map (fun i => Effect.draw (DrawOp.fillRect
                (((i * 123) % c.width : Nat) : α) (((i * 321) % c.height : Nat) : α) 1 1)) ∧
          ((render M' c').log.drop (c'.log.length + 3)).take 100
            = ((render M c).log.drop (c.log.length + 3)).take 100) := by
  have hlog : (drawStars c).log
      = c.log ++ Effect.draw (DrawOp.setFillStyle "white") ::
          (List.range 100).map (fun i => Effect.draw (DrawOp.fillRect
            (((i * 123) % c.width : Nat) : α) (((i * 321) % c.height : Nat) : α) 1 1)) := by
    rw [drawStars_eq]
    simp [extend, starOps, Function.comp_def]
  have hdrop : (drawStars c).log.drop (c.log.length + 1)
      = (List.range 100).map (fun i => Effect.draw (DrawOp.fillRect
          (((i * 123) % c.width : Nat) : α) (((i * 321) % c.height : Nat) : α) 1 1)) := by
    rw [hlog, List.drop_append, List.drop_succ_cons, List.drop_zero]
  have hstars : ∀ (M : JSMath α) (d : GameClient α) (gs : GameState α),
      d.gameState = some gs →
      ((render M d).log.drop (d.log.length + 3)).take 100
        = (List.range 100).map (fun i => Effect.draw (DrawOp.fillRect
            (((i * 123) % d.width : Nat) : α) (((i * 321) % d.height : Nat) : α) 1 1)) := by
    intro M d gs hgs
    rw [render_eq M d gs hgs]
    simp only [extend, renderOps, starOps, List.map_append, List.map_cons, List.map_nil,
      List.cons_append, List.nil_append, List.append_assoc, List.map_map]
    rw [List.drop_append, List.drop_succ_cons, List.drop_succ_cons, List.drop_succ_cons,
      List.drop_zero]
    apply List.take_left'
    simp
  refine ⟨hlog, ?_, ?_, ?_⟩
  · rw [hdrop]; simp
  · rw [hdrop, show List.range 100 = 0 :: (List.range 99).map Nat.succ from
      List.range_succ_eq_map 99]
    simp only [List.map_cons, List.head?_cons, Nat.zero_mul, Nat.zero_mod, Nat.cast_zero]
  · intro M M' c' gs gs' hgs hgs' hw hh
    refine ⟨hstars M c gs hgs, ?_⟩
    rw [hstars M c gs hgs, hstars M' c' gs' hgs', hw, hh]

theorem drawStars_deterministic_witness :
    0 < (freshClient : GameClient ℚ).width ∧ 0 < (freshClient : GameClient ℚ).height ∧
      ((drawStars (freshClient : GameClient ℚ)).log.drop
        ((freshClient : GameClient ℚ).log.length + 1)).length = 100 ∧
      ((drawStars (freshClient : GameClient ℚ)).log.drop
        ((freshClient : GameClient ℚ).log.length + 1)).head?
        = some (Effect.draw (DrawOp.fillRect 0 0 1 1)) :=
  have h := drawStars_deterministic (freshClient : GameClient ℚ) (by decide) (by decide)
  ⟨by decide, by decide, h.2.1, h.2.2.1⟩

/-- C8 (the code at the failing input): a client whose socket id is `constructor` holds a
snapshot in which that id is absent; the guard of `updateUI` reads the member inherited
from `Object.prototype`, and `updateUI` overwrites the three status fields, here with
`Score: undefined`, `Health: NaN` and `Players: 1`, instead of leaving them as they were. -/
theorem updateUI_inherited_member_writes :
    inheritedIdFresh.socketId = "constructor" ∧
      (foreignState : GameState ℚ).players.lookup inheritedIdFresh.socketId = none ∧
      inheritedIdFresh.scoreText = "Score: 0" ∧
      inheritedIdFresh.healthText = "Health: 100" ∧
      inheritedIdFresh.playersText = "Players: 0" ∧
      (updateUI { inheritedIdFresh with gameState := some foreignState }).scoreText
        = "Score: undefined" ∧
      (updateUI { inheritedIdFresh with gameState := some foreignState }).healthText
        = "Health: NaN" ∧
      (updateUI { inheritedIdFresh with gameState := some foreignState }).playersText
        = "Players: 1" ∧
      (updateUI { inheritedIdFresh with gameState := some foreignState }).log
        = inheritedIdFresh.log ++
          [Effect.setText StatusField.score "Score: undefined",
            Effect.setText StatusField.health "Health: NaN",
            Effect.setText StatusField.players "Players: 1"] :=
  ⟨rfl, rfl, rfl, rfl, rfl, rfl, rfl, rfl, rfl⟩

/-- C3 (the code at the failing input): a client whose socket id is `constructor` holds a
snapshot in which that id is absent; the guard of `sendInput` reads the member inherited
from `Object.prototype`, and the tick emits `playerMove` with rotation `NaN` instead of
no message.  The render of the same tick draws the two bullets of the snapshot as filled
discs of radius 2 at `(1, 2)` and `(3, 4)`, and then its two asteroids as closed stroked
outlines of 8 vertices translated to `(5, 6)` and `(8, 9)`. -/
theorem tick_inherited_member_emits :
    inheritedIdClient.gameState = some foreignState ∧
      inheritedIdClient.socketId = "constructor" ∧
      (foreignState : GameState ℚ).players.lookup inheritedIdClient.socketId = none ∧
      sendInput ratMath inheritedIdClient
        = { inheritedIdClient with
            log := inheritedIdClient.log ++ [Effect.emit Msg.playerMoveNaN] } ∧
      (gameLoop ratMath inheritedIdClient).log
        = inheritedIdClient.log ++ [Effect.emit Msg.playerMoveNaN]
          ++ ([DrawOp.setFillStyle "#001122", DrawOp.fillRect 0 0 800 600]
              ++ starOps 800 600
              ++ shipOps (playerAt 10 20 80 3)
              ++ [DrawOp.setFillStyle "#ffff00", DrawOp.beginPath,
                  DrawOp.arc 1 2 2 0 (ratMath.PI * 2), DrawOp.fill,
                  DrawOp.setFillStyle "#ffff00", DrawOp.beginPath,
                  DrawOp.arc 3 4 2 0 (ratMath.PI * 2), DrawOp.fill]
              ++ ([DrawOp.save, DrawOp.translate 5 6, DrawOp.rotate 0,
                    DrawOp.setStrokeStyle "#888", DrawOp.setLineWidth 2, DrawOp.beginPath]
                  ++ (List.range 8).map (fun i => vertexOp ratMath 7 (0 + i) i)
                  ++ [DrawOp.closePath, DrawOp.stroke, DrawOp.restore])
              ++ ([DrawOp.save, DrawOp.translate 8 9, DrawOp.rotate 1,
                    DrawOp.setStrokeStyle "#888", DrawOp.setLineWidth 2, DrawOp.beginPath]
                  ++ (List.range 8).map (fun i => vertexOp ratMath 10 (8 + i) i)
                  ++ [DrawOp.closePath, DrawOp.stroke, DrawOp.restore])).map Effect.draw
          ++ [Effect.requestAnimationFrame] := by
  have hs : sendInput ratMath inheritedIdClient
      = { inheritedIdClient with
          log := inheritedIdClient.log ++ [Effect.emit Msg.playerMoveNaN] } := by
    rw [sendInput_log]
    rfl
  refine ⟨rfl, rfl, rfl, hs, ?_⟩
  unfold gameLoop
  simp only [hs]
  rw [render_eq ratMath _ foreignState rfl]
  simp only [requestAnimationFrame, extend, renderOps, foreignState, asteroidsOps,
    asteroidOps, bulletOps, List.map_cons, List.map_nil, List.flatten_cons,
    List.flatten_nil, List.append_nil, List.append_assoc, List.cons_append,
    List.nil_append]
  rfl

/-- C9 (amended): every tick of `gameLoop`, with or without a snapshot, performs in this
order the `playerMove` emission (exactly one message, with the `atan2` rotation, when the
snapshot holds the local player; none when no snapshot is held, and none when the snapshot
lacks the local id and the id is not the name of a member of `Object.prototype`), the
canvas calls of `render` (none without a snapshot) and one request for the next frame; it
writes no status field and keeps the snapshot.  The status projection is run by the
`gameState` listener, right after it stored the snapshot. -/
theorem gameLoop_effects [Field α] (M : JSMath α) (c : GameClient α) :
    ∃ (emits : List (Msg α)) (draws : List (DrawOp α)),
      (sendInput M c).log = c.log ++ emits.map Effect.emit ∧
      (render M (sendInput M c)).log = (sendInput M c).log ++ draws.map Effect.draw ∧
      (gameLoop M c).log = c.log ++ emits.map Effect.emit ++ draws.map Effect.draw
        ++ [Effect.requestAnimationFrame] ∧
      (c.gameState = none → emits = [] ∧ draws = []) ∧
      (∀ gs p, c.gameState = some gs → gs.players.lookup c.socketId = some p →
        emits = [Msg.playerMove (M.atan2 (c.mouse.y - p.y) (c.mouse.x - p.x))]) ∧
      (∀ gs, c.gameState = some gs → gs.players.lookup c.socketId = none →
        c.socketId ∉ objectPrototypeKeys → emits = []) ∧
      (∀ f t, Effect.setText f t ∉ (gameLoop M c).log.drop c.log.length) ∧
      (gameLoop M c).scoreText = c.scoreText ∧ (gameLoop M c).healthText = c.healthText ∧
      (gameLoop M c).playersText = c.playersText ∧
      (gameLoop M c).gameState = c.gameState ∧
      (∀ s : GameState α, onGameState c s = updateUI { c with gameState := some s }) := by
  obtain ⟨emits, draws, he, hs, hr, hgl, hnone, hno, h1, h2, h3, h4⟩ := gameLoop_log M c
  refine ⟨emits, draws, hs, hr, hgl, ?_, ?_, ?_, hno, h1, h2, h3, h4, fun _ => rfl⟩
  · intro hg
    refine ⟨?_, hnone hg⟩
    rw [he, hg]
  · intro gs p hg hp
    rw [he, hg]
    simp only [moveMsgs, getPlayer_own _ _ _ hp]
  · intro gs hg hp hid
    rw [he, hg]
    simp only [moveMsgs, getPlayer_undefined _ _ hp hid]

/-- C9 (as stated) fails: on the client that was constructed and then received a snapshot
holding the local player, a tick of `gameLoop` writes no status field, while the tick
worded by the specification writes `Score: 5` (and the two other fields) before it requests
the next frame; the two ticks therefore differ. -/
theorem gameLoop_skips_status_projection :
    runningClient.gameState = some (soloState 100 100 100 5) ∧
      (∀ f t, Effect.setText f t ∉
        (gameLoop ratMath runningClient).log.drop runningClient.log.length) ∧
      Effect.setText StatusField.score "Score: 5" ∈
        (claimedTick ratMath runningClient).log.drop runningClient.log.length ∧
      gameLoop ratMath runningClient ≠ claimedTick ratMath runningClient := by
  obtain ⟨emits, draws, _, hs, hr, _, _, hno, _, _, _, _⟩ :=
    gameLoop_log ratMath runningClient
  have hmem : Effect.setText StatusField.score "Score: 5" ∈
      (claimedTick ratMath runningClient).log.drop runningClient.log.length := by
    rw [claimedTick_log ratMath runningClient (soloState 100 100 100 5)
      (playerAt 100 100 100 5) rfl rfl, hr, hs, List.append_assoc, List.append_assoc,
      List.append_assoc, List.drop_left]
    refine List.mem_append_right _ (List.mem_append_right _ (List.mem_append_left _ ?_))
    exact List.mem_cons_self _ _
  refine ⟨rfl, hno, hmem, ?_⟩
  intro heq
  rw [← heq] at hmem
  exact hno _ _ hmem

/-- C10: whatever the prior client state, after the `gameState` listener ran on payload
`s` the held snapshot is `s`; after receipts of `s1` and then `s2` it is `s2`, and the calls
that `render`, `sendInput` and `updateUI` then make are those made after a receipt of `s2`
alone, the same for every earlier snapshot. -/
theorem onGameState_replaces [Field α] (M : JSMath α) (c : GameClient α)
    (s1 s2 : GameState α) :
    (onGameState c s2).gameState = some s2 ∧
      (onGameState (onGameState c s1) s2).gameState = some s2 ∧
      ∃ dr ds du : List (Effect α),
        ((render M (onGameState c s2)).log = (onGameState c s2).log ++ dr ∧
          (sendInput M (onGameState c s2)).log = (onGameState c s2).log ++ ds ∧
          (updateUI (onGameState c s2)).log = (onGameState c s2).log ++ du) ∧
        ∀ s : GameState α,
          (render M (onGameState (onGameState c s) s2)).log
            = (onGameState (onGameState c s) s2).log ++ dr ∧
          (sendInput M (onGameState (onGameState c s) s2)).log
            = (onGameState (onGameState c s) s2).log ++ ds ∧
          (updateUI (onGameState (onGameState c s) s2)).log
            = (onGameState (onGameState c s) s2).log ++ du := by
  obtain ⟨hg, hm, hi, hw, hh, hr⟩ := onGameState_frame c s2
  refine ⟨hg, (onGameState_frame _ s2).1, _, _, _,
    effects_of_view M c (onGameState c s2) s2 hg hm hi hw hh hr, ?_⟩
  intro s
  obtain ⟨_, hm1, hi1, hw1, hh1, hr1⟩ := onGameState_frame c s
  obtain ⟨hg2, hm2, hi2, hw2, hh2, hr2⟩ := onGameState_frame (onGameState c s) s2
  exact effects_of_view M c _ s2 hg2 (hm2.trans hm1) (hi2.trans hi1) (hw2.trans hw1)
    (hh2.trans hh1) (hr2.trans hr1)

end SpaceShooter
